import Mathlib

/-!
Verification development for the smart-grocery-backend repository.

The repository's core logic (ingredient classification engine and the
bounded value-scored Airtable cache) is embedded shallowly below:

* Python strings are modelled as Lean String values; all character-level
  processing the source performs with str methods and regexes is rendered
  as executable functions over List Char (Lean's built-in String.toLower,
  String.splitOn and friends do not reduce in the kernel, so hand-rolled
  structural versions are used; each one names the source operation it
  translates).
* Python dicts used as lookup maps (ADDITIVES_LOOKUP and friends) are
  association lists with List.lookup (first-match) semantics; dict keys
  are unique in the source, so first-match agrees with dict lookup.
* Python sets that collect categorized display names are rendered as
  duplicate-free lists with an insert-if-absent operation; the source
  converts the sets with list(...) at the end, in an order Python does
  not pin down, so list order in this model is a deterministic rendition.
* Python floats are modelled as exact rationals.
* datetime values are modelled as Nat timestamps counting seconds from
  datetime.min (so datetime.min itself is 0); datetime.fromisoformat is
  an abstract parameter parse : String -> Option Nat, since its argument
  strings are opaque data for every claim under study.
-/

namespace SmartGrocery

/-! Character-level helpers translating the Python string primitives. -/

/-- Translation of str.lower() (ASCII data in this repository). -/
def lowerChars (cs : List Char) : List Char := cs.map Char.toLower

/-- Translation of str.strip(): drop leading and trailing whitespace. -/
def stripWs (cs : List Char) : List Char :=
  ((cs.dropWhile Char.isWhitespace).reverse.dropWhile Char.isWhitespace).reverse

/-- Helper for collapseWs: the flag says whether the previous emitted
character was a collapsed space. -/
def collapseWsAux : Bool → List Char → List Char
  | _, [] => []
  | prev, c :: rest =>
    if c.isWhitespace then
      if prev then collapseWsAux true rest else ' ' :: collapseWsAux true rest
    else c :: collapseWsAux false rest

/-- Translation of re.sub(r"\s+", " ", s): collapse whitespace runs. -/
def collapseWs (cs : List Char) : List Char := collapseWsAux false cs

/-- The apostrophe character (code point 39). -/
def apostrophe : Char := Char.ofNat 39

/-- The double-quote character (code point 34). -/
def doubleQuote : Char := Char.ofNat 34

/-- The punctuation stripped by rstrip in analyze_ingredients. -/
def trailingPunct : List Char := ['.', ',', apostrophe, doubleQuote]

/-- Translation of str.rstrip(chars). -/
def pyRstrip (bad : List Char) (cs : List Char) : List Char :=
  (cs.reverse.dropWhile (fun c => bad.contains c)).reverse

/-- Translation of str.replace("no.", "no "): left-to-right,
non-overlapping replacement (the input is already lowercased). -/
def replace_no_dot : List Char → List Char
  | 'n' :: 'o' :: '.' :: rest => 'n' :: 'o' :: ' ' :: replace_no_dot rest
  | c :: rest => c :: replace_no_dot rest
  | [] => []

/-- Per-component normalization from analyze_ingredients (app.py 279-282):
lower().strip(), collapse whitespace, replace "no." with "no ",
rstrip(".,... quote marks"), strip(). -/
def normalize_component (cs : List Char) : List Char :=
  stripWs (pyRstrip trailingPunct (replace_no_dot (collapseWs (stripWs (lowerChars cs)))))

/-- Helper for split_words, accumulating the current word reversed. -/
def splitWsAux : List Char → List Char → List (List Char)
  | acc, [] => if acc = [] then [] else [acc.reverse]
  | acc, c :: rest =>
    if c.isWhitespace then
      if acc = [] then splitWsAux [] rest else acc.reverse :: splitWsAux [] rest
    else splitWsAux (c :: acc) rest

/-- Translation of str.split() with no argument: split on whitespace runs,
dropping empty pieces. -/
def split_words (cs : List Char) : List String := (splitWsAux [] cs).map String.mk

/-! The Reference Index: the process-global lookup dictionaries built by
load_data_lookups (app.py 45-185), modelled as one immutable value. -/

/-- The global lookup dictionaries of app.py as one immutable record:
ADDITIVES_LOOKUP (normalized alias to normalized canonical name),
COMMON_INGREDIENTS_LOOKUP (normalized common ingredient to preferred
casing), COMMON_FDA_SUBSTANCES_SET, and the canonical-name to
"Substance Name (Heading)" projection of FDA_SUBSTANCE_DETAILS_LOOKUP. -/
structure ReferenceIndex where
  additives_lookup : List (String × String)
  common_ingredients_lookup : List (String × String)
  common_fda_substances_set : List String
  fda_substance_heading : List (String × String)

/-- Helper for pyTitle: the flag says whether the previous character was
alphabetic. -/
def pyTitleAux : Bool → List Char → List Char
  | _, [] => []
  | prevAlpha, c :: rest =>
    if c.isAlpha then (if prevAlpha then c.toLower else c.toUpper) :: pyTitleAux true rest
    else c :: pyTitleAux false rest

/-- Translation of str.title(): uppercase the first character of every
alphabetic run, lowercase the rest. -/
def pyTitle (s : String) : String := String.mk (pyTitleAux false s.data)

/-- Display name for a matched FDA substance (app.py 306-308):
FDA_SUBSTANCE_DETAILS_LOOKUP.get(c, ...).get("Substance Name (Heading)",
c.title()). -/
def fda_display_name (idx : ReferenceIndex) (canonical : String) : String :=
  (idx.fda_substance_heading.lookup canonical).getD (pyTitle canonical)

/-! The window-matching loops of analyze_ingredients
(app.py 292-301 and 311-323; identically api/gtin-lookup.py 259-268). -/

/-- The contiguous token window " ".join(words[i:j]). -/
def windowPhrase (words : List String) (i j : Nat) : String :=
  String.intercalate " " ((words.drop i).take (j - i))

/-- The inner loop bounds range(len(words), i, -1): the descending list
[n, n-1, ..., i+1]. -/
def window_lengths_desc (n i : Nat) : List Nat :=
  (List.range (n - i)).map (fun t => n - t)

/-- The inner loop of pass 1 for a fixed start offset i: try windows
words[i:j] for j from len(words) down to i+1 and return the first
canonical name found in the additives map. -/
def search_lookup_at (lookup : List (String × String)) (words : List String) (i : Nat) :
    Option String :=
  (window_lengths_desc words.length i).findSome? (fun j => lookup.lookup (windowPhrase words i j))

/-- Pass 1 of the classifier (app.py 292-301): for i in range(len(words)),
for j in range(len(words), i, -1), look the window up in ADDITIVES_LOOKUP;
the first hit in that scan order wins. -/
def find_additive_match (lookup : List (String × String)) (words : List String) :
    Option String :=
  (List.range words.length).findSome? (search_lookup_at lookup words)

/-- The body of the pass-2 window test (app.py 316-321): a common-ingredient
hit counts only when the phrase is not an additive alias whose canonical
name is in COMMON_FDA_SUBSTANCES_SET. -/
def common_candidate (idx : ReferenceIndex) (phrase : String) : Option String :=
  match idx.common_ingredients_lookup.lookup phrase with
  | some display =>
    match idx.additives_lookup.lookup phrase with
    | none => some display
    | some canonical =>
      if canonical ∈ idx.common_fda_substances_set then none else some display
  | none => none

/-- The inner loop of pass 2 for a fixed start offset. -/
def search_common_at (idx : ReferenceIndex) (words : List String) (i : Nat) : Option String :=
  (window_lengths_desc words.length i).findSome? (fun j => common_candidate idx (windowPhrase words i j))

/-- Pass 2 of the classifier (app.py 311-323): the same loop order as pass 1,
against COMMON_INGREDIENTS_LOOKUP with the pass-2 guard. -/
def find_common_match (idx : ReferenceIndex) (words : List String) : Option String :=
  (List.range words.length).findSome? (search_common_at idx words)

/-! The NOVA scorer (app.py 188-235) and its variant in
api/gtin-lookup.py 160-206. Python truthiness of a list is non-emptiness. -/

/-- Translation of calculate_nova_score (app.py 188-235). The arguments are
the four category collections (lists in the source, converted from sets). -/
def calculate_nova_score (identified_fda_non_common identified_fda_common
    identified_common_ingredients_only truly_unidentified_ingredients : List String) :
    Nat × String :=
  if identified_fda_non_common ≠ [] then (4, "Ultra-Processed Food")
  else if truly_unidentified_ingredients.length > 2 then
    (4, "Ultra-Processed Food (Unidentified Ingredients)")
  else if (identified_common_ingredients_only ≠ [] ∧ identified_fda_common ≠ []) ∨
      (identified_common_ingredients_only.length > 0 ∧ identified_fda_common = [] ∧
        identified_fda_non_common = [] ∧ truly_unidentified_ingredients = []) then
    (3, "Processed Food")
  else if identified_fda_common ≠ [] ∧ identified_common_ingredients_only = [] ∧
      truly_unidentified_ingredients = [] then
    (2, "Processed Culinary Ingredient")
  else if identified_common_ingredients_only ≠ [] ∧ identified_fda_common = [] ∧
      identified_fda_non_common = [] ∧ truly_unidentified_ingredients = [] then
    (1, "Unprocessed or Minimally Processed Food")
  else if identified_fda_non_common = [] ∧ identified_fda_common = [] ∧
      identified_common_ingredients_only = [] ∧ truly_unidentified_ingredients = [] then
    (1, "Unprocessed or Minimally Processed Food (No Ingredients Listed)")
  else (3, "Processed Food (Categorization Ambiguous)")

/-- Translation of calculate_nova_score from api/gtin-lookup.py 160-206.
Its rule 3 enters the same outer condition as app.py but returns only in
two sub-cases and otherwise falls through to the later rules; its rule 5
returns level 1 through both of its sub-branches. -/
def calculate_nova_score_api (identified_fda_non_common identified_fda_common
    identified_common_ingredients_only truly_unidentified_ingredients : List String) :
    Nat × String :=
  if identified_fda_non_common ≠ [] then (4, "Ultra-Processed Food")
  else if truly_unidentified_ingredients.length > 2 then
    (4, "Ultra-Processed Food (Unidentified Ingredients)")
  else if ((identified_common_ingredients_only ≠ [] ∧ identified_fda_common ≠ []) ∨
      (identified_common_ingredients_only.length > 0 ∧ identified_fda_common = [] ∧
        identified_fda_non_common = [] ∧ truly_unidentified_ingredients = [])) ∧
      (identified_fda_common ≠ [] ∧ identified_common_ingredients_only ≠ []) then
    (3, "Processed Food")
  else if ((identified_common_ingredients_only ≠ [] ∧ identified_fda_common ≠ []) ∨
      (identified_common_ingredients_only.length > 0 ∧ identified_fda_common = [] ∧
        identified_fda_non_common = [] ∧ truly_unidentified_ingredients = [])) ∧
      (identified_common_ingredients_only.length > 1 ∧ identified_fda_common = [] ∧
        identified_fda_non_common = [] ∧ truly_unidentified_ingredients = []) then
    (3, "Processed Food (Simple Combination)")
  else if identified_fda_common ≠ [] ∧ identified_common_ingredients_only = [] ∧
      truly_unidentified_ingredients = [] then
    (2, "Processed Culinary Ingredient")
  else if identified_common_ingredients_only ≠ [] ∧ identified_fda_common = [] ∧
      identified_fda_non_common = [] ∧ truly_unidentified_ingredients = [] then
    (1, "Unprocessed or Minimally Processed Food")
  else if identified_fda_non_common = [] ∧ identified_fda_common = [] ∧
      identified_common_ingredients_only = [] ∧ truly_unidentified_ingredients = [] then
    (1, "Unprocessed or Minimally Processed Food (No Ingredients Listed)")
  else (3, "Processed Food (Categorization Ambiguous)")

/-! The segmenter: steps 1-3 of analyze_ingredients (app.py 256-273).
The regex substitutions are rendered as left-to-right scanners over
List Char; scanners that consume a variable number of characters per
step take a fuel argument initialized to the input length, which bounds
the number of scan steps. -/

/-- The label alternatives of the leading-label regex (app.py 256),
in the alternation order of the pattern. -/
def label_words : List String := ["ingredients", "contains", "ingredient list", "ingredients list"]

/-- Translation of re.sub(r"^(?:ingredients|...):?\s*", "", s, IGNORECASE):
if a label matches at the start (first alternative in pattern order),
drop it plus an optional colon plus following whitespace. -/
def strip_label (cs : List Char) : List Char :=
  let lower := lowerChars cs
  match label_words.find? (fun lab => lab.data.isPrefixOf lower) with
  | some lab =>
    let rest := cs.drop lab.length
    let rest := match rest with
      | ':' :: r => r
      | r => r
    rest.dropWhile Char.isWhitespace
  | none => cs

/-- The literal characters of "and/or". -/
def andOrChars : List Char := ['a', 'n', 'd', '/', 'o', 'r']

/-- Scanner for re.sub(r"\s+and/or\s+", ", ", s, IGNORECASE): at each
position starting a whitespace run, match the run, a case-insensitive
"and/or", and a nonempty trailing whitespace run; on a match emit ", "
and continue after it, otherwise advance one character. -/
def replace_and_or_aux : Nat → List Char → List Char
  | 0, cs => cs
  | _ + 1, [] => []
  | fuel + 1, c :: rest =>
    if c.isWhitespace then
      let cs1 := (c :: rest).dropWhile Char.isWhitespace
      if (cs1.take 6).map Char.toLower = andOrChars then
        let cs2 := cs1.drop 6
        let cs3 := cs2.dropWhile Char.isWhitespace
        if cs3.length < cs2.length then ',' :: ' ' :: replace_and_or_aux fuel cs3
        else c :: replace_and_or_aux fuel rest
      else c :: replace_and_or_aux fuel rest
    else c :: replace_and_or_aux fuel rest

/-- Translation of the and/or substitution (app.py 257). -/
def replace_and_or (cs : List Char) : List Char := replace_and_or_aux cs.length cs

/-- The closed descriptor vocabulary of the parenthetical-descriptor regex
(app.py 258), excluding the "vitamin [a-z0-9]+" alternative. -/
def descriptor_vocab : List String :=
  ["color", "flavour", "flavor", "emulsifier", "stabilizer", "thickener",
   "preservative", "antioxidant", "acidifier", "sweetener", "gelling agent",
   "firming agent", "nutrient"]

/-- Test for the character class [a-z0-9] (applied to lowercased input). -/
def is_lower_alnum (c : Char) : Bool :=
  (decide (97 ≤ c.toNat) && decide (c.toNat ≤ 122)) ||
    (decide (48 ≤ c.toNat) && decide (c.toNat ≤ 57))

/-- Test for the "vitamin [a-z0-9]+" alternative, on lowercased content. -/
def is_vitamin_code (cs : List Char) : Bool :=
  "vitamin ".data.isPrefixOf cs && !(cs.drop 8).isEmpty && (cs.drop 8).all is_lower_alnum

/-- Whether a parenthetical content matches the descriptor alternation
(case-insensitively). -/
def is_descriptor_content (cs : List Char) : Bool :=
  let lower := lowerChars cs
  descriptor_vocab.any (fun w => w.data == lower) || is_vitamin_code lower

/-- Read to the first closing parenthesis with no nested parenthesis:
the match of \( [^()]*? \). Returns the flat content and the remainder,
or none when an opening parenthesis or the end intervenes. -/
def read_flat_paren : List Char → Option (List Char × List Char)
  | [] => none
  | c :: rest =>
    if c = ')' then some ([], rest)
    else if c = '(' then none
    else (read_flat_paren rest).map (fun p => (c :: p.1, p.2))

/-- Scanner for re.sub(r"\s*\((?:color|...|vitamin [a-z0-9]+)\)\s*", "", s,
IGNORECASE): at each position, match optional whitespace, a parenthesized
descriptor word, and trailing whitespace; remove the whole span on a match,
otherwise advance one character. -/
def remove_descriptor_parens_aux : Nat → List Char → List Char
  | 0, cs => cs
  | _ + 1, [] => []
  | fuel + 1, c :: rest =>
    match ((c :: rest).dropWhile Char.isWhitespace) with
    | '(' :: inner =>
      match read_flat_paren inner with
      | some (content, rest2) =>
        if is_descriptor_content content then
          remove_descriptor_parens_aux fuel (rest2.dropWhile Char.isWhitespace)
        else c :: remove_descriptor_parens_aux fuel rest
      | none => c :: remove_descriptor_parens_aux fuel rest
    | _ => c :: remove_descriptor_parens_aux fuel rest

/-- Translation of the descriptor-parenthetical removal (app.py 258). -/
def remove_descriptor_parens (cs : List Char) : List Char :=
  remove_descriptor_parens_aux cs.length cs

/-- Test for a decimal digit. -/
def is_digit_char (c : Char) : Bool := decide (48 ≤ c.toNat) && decide (c.toNat ≤ 57)

/-- Scanner for re.sub(r"\s*\[vitamin b\d\]\s*", "", s, IGNORECASE)
(app.py 259). -/
def remove_vitamin_brackets_aux : Nat → List Char → List Char
  | 0, cs => cs
  | _ + 1, [] => []
  | fuel + 1, c :: rest =>
    match ((c :: rest).dropWhile Char.isWhitespace) with
    | '[' :: inner =>
      if "vitamin b".data.isPrefixOf (lowerChars inner) then
        match inner.drop 9 with
        | d :: ']' :: rest2 =>
          if is_digit_char d then
            remove_vitamin_brackets_aux fuel (rest2.dropWhile Char.isWhitespace)
          else c :: remove_vitamin_brackets_aux fuel rest
        | _ => c :: remove_vitamin_brackets_aux fuel rest
      else c :: remove_vitamin_brackets_aux fuel rest
    | _ => c :: remove_vitamin_brackets_aux fuel rest

/-- Translation of the bracketed-vitamin removal (app.py 259). -/
def remove_vitamin_brackets (cs : List Char) : List Char :=
  remove_vitamin_brackets_aux cs.length cs

/-- Read a one-level-nested parenthetical group after its opening
parenthesis, as matched by \(([^()]*?(?:\([^()]*?\)[^()]*?)*?)\):
flat content interleaved with flat nested groups, closed by the first
closing parenthesis at outer depth. Returns the captured content
(nested parentheses included) and the remainder; none when the group
cannot be completed (deeper nesting or unbalanced input). -/
def read_paren_group : Nat → List Char → List Char → Option (List Char × List Char)
  | 0, _, _ => none
  | _ + 1, _, [] => none
  | fuel + 1, acc, c :: rest =>
    if c = ')' then some (acc.reverse, rest)
    else if c = '(' then
      match read_flat_paren rest with
      | some (inner, rest2) =>
        read_paren_group fuel (')' :: (inner.reverse ++ '(' :: acc)) rest2
      | none => none
    else read_paren_group fuel (c :: acc) rest

/-- Translation of re.findall plus re.sub for the parenthetical pattern
(app.py 263-264): scan for parenthetical groups, collecting their contents
and removing their spans from the main string; an opening parenthesis whose
group cannot be completed stays in the main string and scanning resumes
after it, as the regex engine does. -/
def extract_parentheticals : Nat → List Char → List (List Char) × List Char
  | 0, cs => ([], cs)
  | _ + 1, [] => ([], [])
  | fuel + 1, c :: rest =>
    if c = '(' then
      match read_paren_group fuel [] rest with
      | some (content, rest2) =>
        let res := extract_parentheticals fuel rest2
        (content :: res.1, res.2)
      | none =>
        let res := extract_parentheticals fuel rest
        (res.1, c :: res.2)
    else
      let res := extract_parentheticals fuel rest
      (res.1, c :: res.2)

/-- Split on commas and semicolons, for re.split(r",\s*|;\s*", main)
(app.py 267); each piece is stripped and empties are dropped by the caller,
which makes the whitespace consumed by the delimiter immaterial. -/
def split_commas_semis_aux : List Char → List Char → List (List Char)
  | acc, [] => [acc.reverse]
  | acc, c :: rest =>
    if c = ',' ∨ c = ';' then acc.reverse :: split_commas_semis_aux [] rest
    else split_commas_semis_aux (c :: acc) rest

/-- Splitter for the main component string. -/
def split_commas_semis (cs : List Char) : List (List Char) :=
  split_commas_semis_aux [] cs

/-- Scanner for re.split(r",\s*| and\s*", content) on a parenthetical
content (app.py 270): split at a comma plus following whitespace, or at a
literal " and" (case-sensitive, a single space then "and") plus following
whitespace. -/
def split_paren_content_aux : Nat → List Char → List Char → List (List Char)
  | 0, acc, cs => [acc.reverse ++ cs]
  | _ + 1, acc, [] => [acc.reverse]
  | fuel + 1, acc, c :: rest =>
    if c = ',' then
      acc.reverse :: split_paren_content_aux fuel [] (rest.dropWhile Char.isWhitespace)
    else if c = ' ' ∧ rest.take 3 = ['a', 'n', 'd'] then
      acc.reverse :: split_paren_content_aux fuel [] ((rest.drop 3).dropWhile Char.isWhitespace)
    else split_paren_content_aux fuel (c :: acc) rest

/-- Splitter for a parenthetical content. -/
def split_paren_content (cs : List Char) : List (List Char) :=
  split_paren_content_aux cs.length [] cs

/-- Steps 1-3 of analyze_ingredients (app.py 256-273): cleanup, parenthetical
extraction, and splitting into the flat candidate component list. -/
def segment_components (s : String) : List String :=
  let cleaned := stripWs (strip_label s.data)
  let cleaned := replace_and_or cleaned
  let cleaned := remove_descriptor_parens cleaned
  let cleaned := remove_vitamin_brackets cleaned
  let er := extract_parentheticals cleaned.length cleaned
  let main_components := ((split_commas_semis (stripWs er.2)).map stripWs).filter (· ≠ [])
  let sub_components :=
    er.1.foldr (fun p acc => (((split_paren_content p).map stripWs).filter (· ≠ [])) ++ acc) []
  (main_components ++ sub_components).map String.mk

/-! The classification pass and scorer of analyze_ingredients
(app.py 239-361). -/

/-- The four category sets plus the categorized-component counter built by
the component loop (app.py 245-248, 276). The Python sets are modelled as
duplicate-free lists via insertSet. -/
structure AnalyzeState where
  identified_fda_non_common : List String
  identified_fda_common : List String
  identified_common_ingredients_only : List String
  truly_unidentified_ingredients : List String
  categorized_items_count : Nat
deriving Repr, DecidableEq

/-- Model of Python set.add: append if not already present. -/
def insertSet (l : List String) (x : String) : List String :=
  if x ∈ l then l else l ++ [x]

/-- The initial (empty) analyze state. -/
def empty_state : AnalyzeState := ⟨[], [], [], [], 0⟩

/-- One iteration of the component loop (app.py 278-333): normalize the
component, skip it when empty, run pass 1 against the additives map then
pass 2 against the common-ingredient map, and file the result in exactly
one of the four collections, counting the component as categorized in the
first three cases. -/
def process_component (idx : ReferenceIndex) (st : AnalyzeState) (original : String) :
    AnalyzeState :=
  let normalized := normalize_component original.data
  if normalized = [] then st
  else
    let words := split_words normalized
    match find_additive_match idx.additives_lookup words with
    | some canonical =>
      if canonical ∈ idx.common_fda_substances_set then
        { st with identified_fda_common := insertSet st.identified_fda_common (fda_display_name idx canonical),
                  categorized_items_count := st.categorized_items_count + 1 }
      else
        { st with identified_fda_non_common := insertSet st.identified_fda_non_common (fda_display_name idx canonical),
                  categorized_items_count := st.categorized_items_count + 1 }
    | none =>
      match find_common_match idx words with
      | some display =>
        { st with identified_common_ingredients_only := insertSet st.identified_common_ingredients_only display,
                  categorized_items_count := st.categorized_items_count + 1 }
      | none =>
        { st with truly_unidentified_ingredients := insertSet st.truly_unidentified_ingredients original }

/-- The data-score formula (app.py 336-340): categorized/total*100 clamped
to [0,100], and 100.0 when there are no components. Floats are modelled as
exact rationals. -/
def data_score_percentage (categorized total : Nat) : ℚ :=
  if total = 0 then 100 else max 0 (min 100 ((categorized : ℚ) / (total : ℚ) * 100))

/-- The qualitative completeness level (app.py 343-348). -/
def data_completeness_level (score : ℚ) : String :=
  if 90 ≤ score then "High" else if 70 ≤ score then "Medium" else "Low"

/-- The full return value of analyze_ingredients: the four category
collections, data score and level, and NOVA score and description. -/
structure AnalysisResult where
  identified_fda_non_common : List String
  identified_fda_common : List String
  identified_common_ingredients_only : List String
  truly_unidentified_ingredients : List String
  data_score_percentage : ℚ
  data_completeness_level : String
  nova_score : Nat
  nova_description : String
deriving Repr, DecidableEq

/-- The component loop plus scorer of analyze_ingredients (app.py 275-361),
applied to the segmented component list: run process_component over the
components, then derive the data score, its level, and the NOVA score. -/
def analyze_components (idx : ReferenceIndex) (components : List String) : AnalysisResult :=
  let st := components.foldl (process_component idx) empty_state
  let score := data_score_percentage st.categorized_items_count components.length
  let nova := calculate_nova_score st.identified_fda_non_common st.identified_fda_common
    st.identified_common_ingredients_only st.truly_unidentified_ingredients
  ⟨st.identified_fda_non_common, st.identified_fda_common,
    st.identified_common_ingredients_only, st.truly_unidentified_ingredients,
    score, data_completeness_level score, nova.1, nova.2⟩

/-- Translation of analyze_ingredients (app.py 239-361): the empty-input
guard, then segmentation, then the component loop and scorer. A missing
(None) ingredient string takes the same guard branch as the empty string
in the source ("if not ingredients_string"), so the empty string here also
stands for the missing input. -/
def analyze_ingredients (idx : ReferenceIndex) (ingredients_string : String) : AnalysisResult :=
  if ingredients_string = "" then
    let nova := calculate_nova_score [] [] [] []
    ⟨[], [], [], [], 100, "High", nova.1, nova.2⟩
  else analyze_components idx (segment_components ingredients_string)

/-! The standalone completeness function of ingredient_parser.py 319-338. -/

/-- Python round-half-even of a rational, as used by round(x, 2) on the
completeness score (floats modelled as exact rationals). -/
def round_half_even (q : ℚ) : ℤ :=
  let f := ⌊q⌋
  let frac := q - f
  if frac < 1/2 then f
  else if 1/2 < frac then f + 1
  else if f % 2 = 0 then f else f + 1

/-- Rounding to two decimal places, for round(completeness_score, 2). -/
def round2 (q : ℚ) : ℚ := (round_half_even (q * 100) : ℚ) / 100

/-- Translation of calculate_data_completeness (ingredient_parser.py
319-338): identified = total - unidentified (integer subtraction), returns
(0.0, "No Ingredients Provided") when there are no ingredients, and maps
the unrounded score through thresholds 90 and 60; the returned score is
rounded to two decimals. -/
def calculate_data_completeness (parsed_ingredients truly_unidentified_ingredients : List String) :
    ℚ × String :=
  let total : ℤ := parsed_ingredients.length
  let identified : ℤ := total - truly_unidentified_ingredients.length
  if total = 0 then (0, "No Ingredients Provided")
  else
    let completeness_score : ℚ := (identified : ℚ) / (total : ℚ) * 100
    let level :=
      if 90 ≤ completeness_score then "High"
      else if 60 ≤ completeness_score then "Medium"
      else "Low"
    (round2 completeness_score, level)

/-! The Airtable-backed cache (app.py 443-584, 669-678; app_old.py 715-774;
gtin_cache_manager.py 29-60, 134-194). Records are modelled with the fields
the cache logic touches; lookup_count and last_access are optional because
the code defends against their absence with .get defaults. -/

/-- The fields of a cached Airtable record that the cache logic reads. -/
structure AirtableFields where
  gtin_upc : String
  description : String
  ingredients : String
  lookup_count : Option Nat
  last_access : Option String
deriving Repr, DecidableEq

/-- An Airtable record: the row id plus its fields. -/
structure AirtableRecord where
  id : Nat
  fields : AirtableFields
deriving Repr, DecidableEq

/-- The maximum row count before eviction (app.py 26). -/
def AIRTABLE_MAX_ROWS : Nat := 1000

/-- The freshness window in days (app_old.py 36). -/
def FRESHNESS_WINDOW_DAYS : Nat := 7

/-- The freshness bonus (app_old.py 37). -/
def FRESHNESS_BONUS : Nat := 5

/-- Seconds per day, fixing seconds as the time unit of the Nat timestamps
that model datetime values (measured from datetime.min). -/
def seconds_per_day : Nat := 86400

/-- timedelta(days=FRESHNESS_WINDOW_DAYS) in the model's time unit. -/
def freshness_window : Nat := FRESHNESS_WINDOW_DAYS * seconds_per_day

/-- The default timestamp string used when last_access is missing
(app.py 571, app_old.py 741, gtin_cache_manager.py 149). -/
def default_last_access : String := "0000-01-01T00:00:00.000Z"

/-- Translation of airtable.search on gtin_upc followed by results[0]:
the first record whose gtin_upc equals the key. -/
def airtable_search (store : List AirtableRecord) (gtin : String) : Option AirtableRecord :=
  store.find? (fun r => r.fields.gtin_upc == gtin)

/-- Translation of airtable.update(record_id, data) for the cache-hit
update: set lookup_count and last_access on the record with the given id,
leaving the other fields in place. -/
def airtable_update_access (store : List AirtableRecord) (record_id : Nat)
    (new_lookup_count : Nat) (new_last_access : String) : List AirtableRecord :=
  store.map (fun r =>
    if r.id = record_id then
      { r with fields := { r.fields with lookup_count := some new_lookup_count,
                                         last_access := some new_last_access } }
    else r)

/-- Translation of check_airtable_cache (app.py 443-474, identically
gtin_cache_manager.py 29-60): search for the GTIN; on a hit, write back
lookup_count + 1 and the current time, but return the pre-update fields
(the source captures current_fields before calling airtable.update and
returns that captured value). -/
def check_airtable_cache (now_iso : String) (store : List AirtableRecord) (gtin : String) :
    Option AirtableFields × List AirtableRecord :=
  match airtable_search store gtin with
  | some record =>
    let new_lookup_count := record.fields.lookup_count.getD 0 + 1
    (some record.fields, airtable_update_access store record.id new_lookup_count now_iso)
  | none => (none, store)

/-- Selection of the first element minimizing a key, as sorted(l, key)[0]
does for a stable sort: fold keeping the current best, replacing it only on
a strictly smaller key. -/
def foldLeast {α K : Type} [LinearOrder K] (key : α → K) (r : α) (l : List α) : α :=
  l.foldl (fun best x => if key x < key best then x else best) r

/-- The sort key of delete_least_valuable_row in app.py 569-572 and
gtin_cache_manager.py 147-150: (lookup_count or 0, last_access string or
the default), compared lexicographically; the Python string comparison is
code-point lexicographic, modelled by the lexicographic order on the
character list. -/
def eviction_key_flat (r : AirtableRecord) : Lex (Nat × List Char) :=
  toLex (r.fields.lookup_count.getD 0, (r.fields.last_access.getD default_last_access).data)

/-- Translation of delete_least_valuable_row (app.py 555-584, identically
gtin_cache_manager.py 134-163): on a nonempty store, sort by
(lookup_count, last_access) ascending and delete the first record by id;
no change when the store is empty. -/
def delete_least_valuable_row (store : List AirtableRecord) : List AirtableRecord :=
  match store with
  | [] => store
  | r :: rest =>
    let victim := foldLeast eviction_key_flat r rest
    store.eraseP (fun x => x.id == victim.id)

/-- The parsed last_access datetime of app_old.py 740-744: parse the
ISO string (datetime.fromisoformat after the Z-suffix rewrite, modelled
abstractly by the parse argument) and fall back to datetime.min
(timestamp 0) when parsing fails or the field is missing. -/
def last_access_dt (parse : String → Option Nat) (f : AirtableFields) : Nat :=
  (parse (f.last_access.getD default_last_access)).getD 0

/-- The effective score of app_old.py 746-748: lookup_count plus the
freshness bonus exactly when now - last_access is below the freshness
window. Nat subtraction truncates at 0, which agrees with the signed
Python comparison because a non-positive difference is below the positive
window either way. -/
def effective_score (now : Nat) (lookup_count : Nat) (la_dt : Nat) : Nat :=
  if now - la_dt < freshness_window then lookup_count + FRESHNESS_BONUS else lookup_count

/-- The sort key of app_old.py 757-761: (effective_score, last_access_dt),
both ascending. -/
def eviction_key_old (now : Nat) (parse : String → Option Nat) (r : AirtableRecord) :
    Lex (Nat × Nat) :=
  toLex (effective_score now (r.fields.lookup_count.getD 0) (last_access_dt parse r.fields),
         last_access_dt parse r.fields)

/-- Translation of delete_least_valuable_row from app_old.py 715-774:
score every record, sort by (effective_score, last_access_dt) and delete
the first record by id; no change when the store is empty. -/
def delete_least_valuable_row_old (now : Nat) (parse : String → Option Nat)
    (store : List AirtableRecord) : List AirtableRecord :=
  match store with
  | [] => store
  | r :: rest =>
    let victim := foldLeast (eviction_key_old now parse) r rest
    store.eraseP (fun x => x.id == victim.id)

/-- The arguments under which the miss path of gtin_lookup_api inserts a
new row. -/
structure PutRequest where
  record_id : Nat
  gtin : String
  description : String
  ingredients : String
  now_iso : String
deriving Repr, DecidableEq

/-- Translation of store_to_airtable (app.py 510-538): insert a new record
with lookup_count 1 and last_access now. -/
def store_to_airtable (p : PutRequest) (store : List AirtableRecord) : List AirtableRecord :=
  store ++ [⟨p.record_id, ⟨p.gtin, p.description, p.ingredients, some 1, some p.now_iso⟩⟩]

/-- The cache-insert flow of the miss path of gtin_lookup_api
(app.py 669-678, identically gtin_cache_manager.py main 186-194): count the
rows, evict the least valuable row when the count has reached
AIRTABLE_MAX_ROWS, then insert the new row. -/
def gtin_lookup_put (p : PutRequest) (store : List AirtableRecord) : List AirtableRecord :=
  let current_row_count := store.length
  let store1 := if AIRTABLE_MAX_ROWS ≤ current_row_count then delete_least_valuable_row store
                else store
  store_to_airtable p store1

/-! Generic facts about the first-hit scan List.findSome?, used to
characterize the window-matching loop order. -/

/-- A findSome? scan skips a prefix on which the function returns none. -/
lemma findSome?_append_of_none {α β : Type} (f : α → Option β) (xs ys : List α)
    (h : ∀ x ∈ xs, f x = none) : (xs ++ ys).findSome? f = ys.findSome? f := by
  induction xs with
  | nil => rfl
  | cons a l ih =>
    have ha : f a = none := h a (by simp)
    rw [List.cons_append, List.findSome?_cons, ha]
    exact ih (fun x hx => h x (by simp [hx]))

/-- A findSome? scan over range n returns the value at the first index
where the function fires. -/
lemma findSome?_range_first {β : Type} (f : Nat → Option β) (n k : Nat) (c : β)
    (hk : k < n) (hnone : ∀ t, t < k → f t = none) (hhit : f k = some c) :
    (List.range n).findSome? f = some c := by
  have hn : n = k + (n - k) := by omega
  rw [hn, List.range_add,
    findSome?_append_of_none _ _ _ (fun x hx => hnone x (List.mem_range.mp hx))]
  obtain ⟨m, hm⟩ : ∃ m, n - k = m + 1 := ⟨n - k - 1, by omega⟩
  rw [hm, List.range_succ_eq_map, List.map_cons, List.findSome?_cons]
  have : k + 0 = k := Nat.add_zero k
  rw [this, hhit]

/-- C1, counterexample. The claim says the alias-map scan proceeds from
the longest window length down to 1 across all start offsets, so a
multi-token window in the map can never lose to a strictly shorter window.
In the code the start offset is the outer loop: on the token list
[salt, citric, acid] with both the single token "salt" and the two-token
window "citric acid" in the alias map, the scan returns the one-token
match at offset 0 even though a two-token window is in the map. -/
theorem C1_counterexample :
    find_additive_match [("salt", "SALT-CANONICAL"), ("citric acid", "CITRIC-CANONICAL")]
      ["salt", "citric", "acid"] = some "SALT-CANONICAL" ∧
    List.lookup (windowPhrase ["salt", "citric", "acid"] 1 3)
      [("salt", "SALT-CANONICAL"), ("citric acid", "CITRIC-CANONICAL")] =
      some "CITRIC-CANONICAL" := by
  constructor
  · rfl
  · rfl

/-- C1, amended: the alias-map search is offset-major, not length-major.
For every start offset from the leftmost on, it examines the windows at
that offset from the longest down to length 1, and returns the first match
in that order: (i) if every offset before i yields no window match, a
match at offset i is the overall result; (ii) at a fixed offset i, if the
window words[i:j] is in the map and every longer window at i is not, the
offset-i scan returns that match. -/
theorem C1_amended_offset_major :
    (∀ (lookup : List (String × String)) (words : List String) (i : Nat) (c : String),
      i < words.length →
      (∀ i', i' < i → search_lookup_at lookup words i' = none) →
      search_lookup_at lookup words i = some c →
      find_additive_match lookup words = some c) ∧
    (∀ (lookup : List (String × String)) (words : List String) (i j : Nat) (c : String),
      i < j → j ≤ words.length →
      List.lookup (windowPhrase words i j) lookup = some c →
      (∀ j', j < j' → j' ≤ words.length → List.lookup (windowPhrase words i j') lookup = none) →
      search_lookup_at lookup words i = some c) := by
  constructor
  · intro lookup words i c hi hnone hhit
    exact findSome?_range_first (search_lookup_at lookup words) words.length i c hi hnone hhit
  · intro lookup words i j c hij hjn hhit hlonger
    unfold search_lookup_at window_lengths_desc
    rw [List.findSome?_map]
    refine findSome?_range_first _ (words.length - i) (words.length - j) c (by omega) ?_ ?_
    · intro t ht
      have h1 : j < words.length - t := by omega
      have h2 : words.length - t ≤ words.length := by omega
      exact hlonger (words.length - t) h1 h2
    · have : words.length - (words.length - j) = j := by omega
      simp only [Function.comp_apply, this]
      exact hhit

/-- Witness for C1_amended_offset_major: on [salt, citric, acid] with only
"citric acid" in the alias map, offset 0 yields nothing, offset 1 matches
the two-token window, and that is the overall result. -/
theorem C1_amended_offset_major_witness :
    find_additive_match [("citric acid", "CA")] ["salt", "citric", "acid"] = some "CA" ∧
    search_lookup_at [("citric acid", "CA")] ["salt", "citric", "acid"] 1 = some "CA" := by
  constructor
  · refine C1_amended_offset_major.1 [("citric acid", "CA")] ["salt", "citric", "acid"] 1 "CA"
      (by decide) ?_ (by rfl)
    intro i' hi'
    have h0 : i' = 0 := by omega
    subst h0
    rfl
  · refine C1_amended_offset_major.2 [("citric acid", "CA")] ["salt", "citric", "acid"] 1 3 "CA"
      (by decide) (by decide) (by rfl) ?_
    intro j' h1 h2
    exact absurd (h1.trans_le h2) (lt_irrefl 3)

/-! Facts about foldLeast: it returns an element of the scanned list whose
key is minimal (the first such element, matching sorted(...)[0] for
Python's stable sort). -/

/-- Unfolding foldLeast over a cons cell. -/
lemma foldLeast_cons {α K : Type} [LinearOrder K] (key : α → K) (r y : α) (l : List α) :
    foldLeast key r (y :: l) = foldLeast key (if key y < key r then y else r) l := rfl

/-- foldLeast returns the seed or a list element. -/
lemma foldLeast_mem {α K : Type} [LinearOrder K] (key : α → K) (r : α) (l : List α) :
    foldLeast key r l = r ∨ foldLeast key r l ∈ l := by
  induction l generalizing r with
  | nil => exact Or.inl rfl
  | cons y l ih =>
    rw [foldLeast_cons]
    by_cases hy : key y < key r
    · rw [if_pos hy]
      rcases ih y with h | h
      · exact Or.inr (by rw [h]; exact List.mem_cons_self y l)
      · exact Or.inr (List.mem_cons_of_mem y h)
    · rw [if_neg hy]
      rcases ih r with h | h
      · exact Or.inl h
      · exact Or.inr (List.mem_cons_of_mem y h)

/-- foldLeast's result is a member of the seed-cons-list. -/
lemma foldLeast_mem_cons {α K : Type} [LinearOrder K] (key : α → K) (r : α) (l : List α) :
    foldLeast key r l ∈ r :: l := by
  rcases foldLeast_mem key r l with h | h
  · rw [h]
    exact List.mem_cons_self r l
  · exact List.mem_cons_of_mem r h

/-- The key of foldLeast's result is minimal over the seed and the list. -/
lemma foldLeast_le {α K : Type} [LinearOrder K] (key : α → K) (r : α) (l : List α) :
    key (foldLeast key r l) ≤ key r ∧ ∀ x ∈ l, key (foldLeast key r l) ≤ key x := by
  induction l generalizing r with
  | nil => exact ⟨le_refl _, by simp⟩
  | cons y l ih =>
    rw [foldLeast_cons]
    by_cases hy : key y < key r
    · rw [if_pos hy]
      obtain ⟨h1, h2⟩ := ih y
      refine ⟨le_trans h1 hy.le, fun x hx => ?_⟩
      rcases List.mem_cons.mp hx with rfl | hx
      · exact h1
      · exact h2 x hx
    · rw [if_neg hy]
      obtain ⟨h1, h2⟩ := ih r
      refine ⟨h1, fun x hx => ?_⟩
      rcases List.mem_cons.mp hx with rfl | hx
      · exact le_trans h1 (not_lt.mp hy)
      · exact h2 x hx

/-- C2, counterexample. The claim says eviction removes the entry with the
minimum effective_score (hit count plus a freshness bonus within the
window). The delete_least_valuable_row of app.py and gtin_cache_manager.py
sorts by bare lookup_count: on a store holding record 1 (lookup_count 1,
accessed 3 days before now, so effective score 1 + 5 = 6) and record 2
(lookup_count 2, accessed 62 days before now, so effective score 2), it
deletes record 1, although the claim's effective-score ranking makes
record 2 the strict minimum. -/
theorem C2_counterexample :
    delete_least_valuable_row
      [⟨1, ⟨"GTIN-A", "", "", some 1, some "2025-12-01T00:00:00"⟩⟩,
       ⟨2, ⟨"GTIN-B", "", "", some 2, some "2025-01-01T00:00:00"⟩⟩] =
      [⟨2, ⟨"GTIN-B", "", "", some 2, some "2025-01-01T00:00:00"⟩⟩] ∧
    eviction_key_old (63 * seconds_per_day)
      (fun s => if s = "2025-12-01T00:00:00" then some (60 * seconds_per_day)
        else if s = "2025-01-01T00:00:00" then some (1 * seconds_per_day) else none)
      ⟨2, ⟨"GTIN-B", "", "", some 2, some "2025-01-01T00:00:00"⟩⟩ <
    eviction_key_old (63 * seconds_per_day)
      (fun s => if s = "2025-12-01T00:00:00" then some (60 * seconds_per_day)
        else if s = "2025-01-01T00:00:00" then some (1 * seconds_per_day) else none)
      ⟨1, ⟨"GTIN-A", "", "", some 1, some "2025-12-01T00:00:00"⟩⟩ := by
  constructor
  · rfl
  · decide

/-- C2, amended. The effective-score eviction of the claim is implemented
by delete_least_valuable_row of app_old.py: it removes a stored entry whose
(effective_score, last_access) key is lexicographically minimal, the bonus
applying exactly when now - last_access is inside the freshness window.
The delete_least_valuable_row of app.py and gtin_cache_manager.py instead
removes an entry minimizing (lookup_count, last_access string): no
freshness bonus, ties broken toward the oldest (lexicographically smallest)
timestamp string. -/
theorem C2_amended :
    (∀ (now : Nat) (parse : String → Option Nat) (store : List AirtableRecord),
      store ≠ [] → ∃ v, v ∈ store ∧
        delete_least_valuable_row_old now parse store =
          store.eraseP (fun x => x.id == v.id) ∧
        ∀ r ∈ store, eviction_key_old now parse v ≤ eviction_key_old now parse r) ∧
    (∀ store : List AirtableRecord,
      store ≠ [] → ∃ v, v ∈ store ∧
        delete_least_valuable_row store = store.eraseP (fun x => x.id == v.id) ∧
        ∀ r ∈ store, eviction_key_flat v ≤ eviction_key_flat r) ∧
    (∀ now lookup_count la_dt : Nat,
      (now - la_dt < freshness_window →
        effective_score now lookup_count la_dt = lookup_count + FRESHNESS_BONUS) ∧
      (freshness_window ≤ now - la_dt →
        effective_score now lookup_count la_dt = lookup_count)) := by
  refine ⟨?_, ?_, ?_⟩
  · intro now parse store hne
    cases store with
    | nil => exact absurd rfl hne
    | cons r rest =>
      refine ⟨foldLeast (eviction_key_old now parse) r rest,
        foldLeast_mem_cons (eviction_key_old now parse) r rest, rfl, ?_⟩
      · obtain ⟨h1, h2⟩ := foldLeast_le (eviction_key_old now parse) r rest
        intro x hx
        rcases List.mem_cons.mp hx with rfl | hx
        · exact h1
        · exact h2 x hx
  · intro store hne
    cases store with
    | nil => exact absurd rfl hne
    | cons r rest =>
      refine ⟨foldLeast eviction_key_flat r rest,
        foldLeast_mem_cons eviction_key_flat r rest, rfl, ?_⟩
      · obtain ⟨h1, h2⟩ := foldLeast_le eviction_key_flat r rest
        intro x hx
        rcases List.mem_cons.mp hx with rfl | hx
        · exact h1
        · exact h2 x hx
  · intro now lookup_count la_dt
    constructor
    · intro h
      exact if_pos h
    · intro h
      exact if_neg (not_lt.mpr h)

/-- Witness for C2_amended: both eviction variants on a one-record store
remove that record, and the freshness bonus fires at distance zero. -/
theorem C2_amended_witness :
    (∃ v, v ∈ [(⟨7, ⟨"G", "", "", some 4, some "TS"⟩⟩ : AirtableRecord)] ∧
      delete_least_valuable_row_old 0 (fun _ => none)
          [(⟨7, ⟨"G", "", "", some 4, some "TS"⟩⟩ : AirtableRecord)] =
        List.eraseP (fun x => x.id == v.id)
          [(⟨7, ⟨"G", "", "", some 4, some "TS"⟩⟩ : AirtableRecord)] ∧
      ∀ r ∈ [(⟨7, ⟨"G", "", "", some 4, some "TS"⟩⟩ : AirtableRecord)],
        eviction_key_old 0 (fun _ => none) v ≤ eviction_key_old 0 (fun _ => none) r) ∧
    (∃ v, v ∈ [(⟨7, ⟨"G", "", "", some 4, some "TS"⟩⟩ : AirtableRecord)] ∧
      delete_least_valuable_row [(⟨7, ⟨"G", "", "", some 4, some "TS"⟩⟩ : AirtableRecord)] =
        List.eraseP (fun x => x.id == v.id)
          [(⟨7, ⟨"G", "", "", some 4, some "TS"⟩⟩ : AirtableRecord)] ∧
      ∀ r ∈ [(⟨7, ⟨"G", "", "", some 4, some "TS"⟩⟩ : AirtableRecord)],
        eviction_key_flat v ≤ eviction_key_flat r) ∧
    effective_score 0 3 0 = 3 + FRESHNESS_BONUS :=
  ⟨C2_amended.1 0 (fun _ => none) _ (by decide),
   C2_amended.2.1 _ (by decide),
   (C2_amended.2.2 0 3 0).1 (by decide)⟩

/-- Eviction on a nonempty store removes exactly one record. -/
lemma delete_least_valuable_row_length (store : List AirtableRecord) (h : store ≠ []) :
    (delete_least_valuable_row store).length + 1 = store.length := by
  cases store with
  | nil => exact absurd rfl h
  | cons r rest =>
    have hvmem : foldLeast eviction_key_flat r rest ∈ r :: rest :=
      foldLeast_mem_cons eviction_key_flat r rest
    have hp : (fun x : AirtableRecord => x.id == (foldLeast eviction_key_flat r rest).id)
        (foldLeast eviction_key_flat r rest) = true := by simp
    exact List.length_eraseP_add_one hvmem hp

/-- C3, confirmed. The miss path counts rows and evicts exactly one before
inserting whenever the count has reached AIRTABLE_MAX_ROWS, so a store at
or below capacity stays at or below capacity through one put and through
any sequence of puts. -/
theorem C3_capacity_invariant :
    (∀ (p : PutRequest) (store : List AirtableRecord),
      store.length ≤ AIRTABLE_MAX_ROWS →
      (gtin_lookup_put p store).length ≤ AIRTABLE_MAX_ROWS) ∧
    (∀ (ps : List PutRequest) (store : List AirtableRecord),
      store.length ≤ AIRTABLE_MAX_ROWS →
      (ps.foldl (fun s p => gtin_lookup_put p s) store).length ≤ AIRTABLE_MAX_ROWS) := by
  have hstep : ∀ (p : PutRequest) (store : List AirtableRecord),
      store.length ≤ AIRTABLE_MAX_ROWS →
      (gtin_lookup_put p store).length ≤ AIRTABLE_MAX_ROWS := by
    intro p store hle
    simp only [gtin_lookup_put, store_to_airtable, List.length_append, List.length_cons,
      List.length_nil]
    by_cases hfull : AIRTABLE_MAX_ROWS ≤ store.length
    · rw [if_pos hfull]
      have hne : store ≠ [] := by
        intro hnil
        rw [hnil] at hfull
        exact absurd hfull (by decide)
      have := delete_least_valuable_row_length store hne
      omega
    · rw [if_neg hfull]
      omega
  refine ⟨hstep, ?_⟩
  intro ps
  induction ps with
  | nil => intro store h; exact h
  | cons p ps ih =>
    intro store h
    exact ih _ (hstep p store h)

/-- Witness for C3_capacity_invariant: one put into an empty store and a
two-put sequence both stay within capacity. -/
theorem C3_capacity_invariant_witness :
    (gtin_lookup_put ⟨1, "g", "d", "i", "t"⟩ []).length ≤ AIRTABLE_MAX_ROWS ∧
    (([⟨1, "g", "d", "i", "t"⟩, ⟨2, "h", "e", "j", "u"⟩] : List PutRequest).foldl
      (fun s p => gtin_lookup_put p s) []).length ≤ AIRTABLE_MAX_ROWS :=
  ⟨C3_capacity_invariant.1 _ [] (by decide),
   C3_capacity_invariant.2 _ [] (by decide)⟩

/-- C4, counterexample. The claim says an input with only CommonOnly
phrases (at least one, nothing else) is assigned level 1. In app.py, rule 3
fires for any nonzero count of CommonOnly with nothing else: a single
CommonOnly entry yields level 3, not 1. -/
theorem C4_counterexample :
    calculate_nova_score [] [] ["Water"] [] = (3, "Processed Food") ∧
    (calculate_nova_score [] [] ["Water"] []).1 ≠ 1 := by
  constructor
  · rfl
  · decide

/-- C4, amended. In app.py's calculate_nova_score, any input with only
CommonOnly present (one or more) yields level 3, so the level-1 rule for
only-CommonOnly is unreachable there. In the api/gtin-lookup.py variant,
exactly one CommonOnly with nothing else yields level 1 and two or more
yield level 3. In both versions, CommonOnly together with RegulatedCommon
(no RegulatedNonCommon, at most two Unidentified) yields level 3. -/
theorem C4_amended :
    (∀ co : List String, co ≠ [] →
      calculate_nova_score [] [] co [] = (3, "Processed Food")) ∧
    (∀ co : List String, co.length = 1 →
      calculate_nova_score_api [] [] co [] = (1, "Unprocessed or Minimally Processed Food")) ∧
    (∀ co : List String, 1 < co.length →
      calculate_nova_score_api [] [] co [] = (3, "Processed Food (Simple Combination)")) ∧
    (∀ fc co un : List String, fc ≠ [] → co ≠ [] → un.length ≤ 2 →
      (calculate_nova_score [] fc co un).1 = 3 ∧
      (calculate_nova_score_api [] fc co un).1 = 3) := by
  refine ⟨?_, ?_, ?_, ?_⟩
  · intro co h
    unfold calculate_nova_score
    rw [if_neg (by simp), if_neg (by decide),
      if_pos (Or.inr ⟨List.length_pos.mpr h, rfl, rfl, rfl⟩)]
  · intro co h
    have hco : co ≠ [] := by
      intro hnil
      rw [hnil] at h
      exact absurd h (by decide)
    unfold calculate_nova_score_api
    rw [if_neg (by simp), if_neg (by decide), if_neg (fun hc => hc.2.1 rfl),
      if_neg (fun hc => by omega), if_neg (fun hc => hc.1 rfl),
      if_pos ⟨hco, rfl, rfl, rfl⟩]
  · intro co h
    unfold calculate_nova_score_api
    rw [if_neg (by simp), if_neg (by decide), if_neg (fun hc => hc.2.1 rfl),
      if_pos ⟨Or.inr ⟨by omega, rfl, rfl, rfl⟩, h, rfl, rfl, rfl⟩]
  · intro fc co un hfc hco hun
    constructor
    · unfold calculate_nova_score
      rw [if_neg (by simp), if_neg (by omega), if_pos (Or.inl ⟨hco, hfc⟩)]
    · unfold calculate_nova_score_api
      rw [if_neg (by simp), if_neg (by omega), if_pos ⟨Or.inl ⟨hco, hfc⟩, hfc, hco⟩]

/-- Witness for C4_amended at singleton and two-element collections. -/
theorem C4_amended_witness :
    calculate_nova_score [] [] ["Water"] [] = (3, "Processed Food") ∧
    calculate_nova_score_api [] [] ["Water"] [] =
      (1, "Unprocessed or Minimally Processed Food") ∧
    calculate_nova_score_api [] [] ["Water", "Milk"] [] =
      (3, "Processed Food (Simple Combination)") ∧
    (calculate_nova_score [] ["Salt"] ["Water"] ["mystery"]).1 = 3 ∧
    (calculate_nova_score_api [] ["Salt"] ["Water"] ["mystery"]).1 = 3 :=
  ⟨C4_amended.1 ["Water"] (by simp),
   C4_amended.2.1 ["Water"] (by decide),
   C4_amended.2.2.1 ["Water", "Milk"] (by decide),
   (C4_amended.2.2.2 ["Salt"] ["Water"] ["mystery"] (by simp) (by simp) (by decide)).1,
   (C4_amended.2.2.2 ["Salt"] ["Water"] ["mystery"] (by simp) (by simp) (by decide)).2⟩

/-- The data score is clamped into [0, 100]. -/
lemma data_score_percentage_bounds (categorized total : Nat) :
    0 ≤ data_score_percentage categorized total ∧ data_score_percentage categorized total ≤ 100 := by
  unfold data_score_percentage
  by_cases h : total = 0
  · rw [if_pos h]
    norm_num
  · rw [if_neg h]
    exact ⟨le_max_left 0 _, max_le (by norm_num) (min_le_left _ _)⟩

/-- The score expression of calculate_data_completeness on a nonempty
input (ingredient_parser.py 330): (total - unidentified) / total * 100
over the integer lengths. -/
def parser_score (parsed_ingredients truly_unidentified_ingredients : List String) : ℚ :=
  ((((parsed_ingredients.length : ℤ) - (truly_unidentified_ingredients.length : ℤ)) : ℤ) : ℚ) /
    (((parsed_ingredients.length : ℤ)) : ℚ) * 100

/-- C5, counterexample. The claim says the completeness score is exactly
100 when there are zero phrases. calculate_data_completeness of
ingredient_parser.py returns (0.0, "No Ingredients Provided") for zero
ingredients. -/
theorem C5_counterexample :
    calculate_data_completeness [] [] = (0, "No Ingredients Provided") ∧
    (calculate_data_completeness [] []).1 ≠ 100 := by
  refine ⟨rfl, ?_⟩
  have h : (calculate_data_completeness [] []).1 = 0 := rfl
  rw [h]
  norm_num

/-- C5, amended. The completeness formula of the claim is the one inlined
in analyze_ingredients (app.py): categorized/total*100 clamped to [0,100],
100 when total is 0, with level thresholds 90 (High) and 70 (Medium); the
score analyze_ingredients returns always lies in [0,100]. The standalone
calculate_data_completeness of ingredient_parser.py differs: it returns
(0.0, "No Ingredients Provided") when there are zero ingredients, and its
Medium threshold is 60, not 70. -/
theorem C5_amended :
    (∀ categorized total : Nat,
      0 ≤ data_score_percentage categorized total ∧
      data_score_percentage categorized total ≤ 100) ∧
    (∀ categorized : Nat, data_score_percentage categorized 0 = 100) ∧
    (∀ s : ℚ, (90 ≤ s → data_completeness_level s = "High") ∧
      (70 ≤ s → s < 90 → data_completeness_level s = "Medium") ∧
      (s < 70 → data_completeness_level s = "Low")) ∧
    (∀ (idx : ReferenceIndex) (input : String),
      0 ≤ (analyze_ingredients idx input).data_score_percentage ∧
      (analyze_ingredients idx input).data_score_percentage ≤ 100) ∧
    (∀ unident : List String,
      calculate_data_completeness [] unident = (0, "No Ingredients Provided")) ∧
    (∀ parsed unident : List String, parsed ≠ [] →
      (90 ≤ parser_score parsed unident →
        (calculate_data_completeness parsed unident).2 = "High") ∧
      (60 ≤ parser_score parsed unident → parser_score parsed unident < 90 →
        (calculate_data_completeness parsed unident).2 = "Medium") ∧
      (parser_score parsed unident < 60 →
        (calculate_data_completeness parsed unident).2 = "Low")) := by
  refine ⟨data_score_percentage_bounds, ?_, ?_, ?_, ?_, ?_⟩
  · intro categorized
    unfold data_score_percentage
    rw [if_pos rfl]
  · intro s
    refine ⟨?_, ?_, ?_⟩
    · intro h
      unfold data_completeness_level
      rw [if_pos h]
    · intro h1 h2
      unfold data_completeness_level
      rw [if_neg (by linarith), if_pos h1]
    · intro h
      unfold data_completeness_level
      rw [if_neg (by linarith), if_neg (by linarith)]
  · intro idx input
    have hcomp : ∀ comps : List String,
        0 ≤ (analyze_components idx comps).data_score_percentage ∧
        (analyze_components idx comps).data_score_percentage ≤ 100 :=
      fun comps => data_score_percentage_bounds _ _
    simp only [analyze_ingredients]
    split
    · exact ⟨by norm_num, by norm_num⟩
    · exact hcomp _
  · intro unident
    rfl
  · intro parsed unident hne
    have htot : ((parsed.length : ℤ)) ≠ 0 := by
      simp [List.length_eq_zero, hne]
    refine ⟨?_, ?_, ?_⟩
    · intro h
      unfold calculate_data_completeness
      rw [if_neg htot]
      show (if (90 : ℚ) ≤ parser_score parsed unident then "High"
        else if (60 : ℚ) ≤ parser_score parsed unident then "Medium" else "Low") = "High"
      rw [if_pos h]
    · intro h1 h2
      unfold calculate_data_completeness
      rw [if_neg htot]
      show (if (90 : ℚ) ≤ parser_score parsed unident then "High"
        else if (60 : ℚ) ≤ parser_score parsed unident then "Medium" else "Low") = "Medium"
      rw [if_neg (by linarith), if_pos h1]
    · intro h
      unfold calculate_data_completeness
      rw [if_neg htot]
      show (if (90 : ℚ) ≤ parser_score parsed unident then "High"
        else if (60 : ℚ) ≤ parser_score parsed unident then "Medium" else "Low") = "Low"
      rw [if_neg (by linarith), if_neg (by linarith)]

/-- Witness for C5_amended at concrete scores and inputs. -/
theorem C5_amended_witness :
    0 ≤ data_score_percentage 2 3 ∧
    data_score_percentage 5 0 = 100 ∧
    data_completeness_level 95 = "High" ∧
    0 ≤ (analyze_ingredients ⟨[], [], [], []⟩ "water").data_score_percentage ∧
    calculate_data_completeness [] ["x"] = (0, "No Ingredients Provided") ∧
    (calculate_data_completeness ["a"] []).2 = "High" :=
  ⟨(C5_amended.1 2 3).1,
   C5_amended.2.1 5,
   (C5_amended.2.2.1 95).1 (by norm_num),
   (C5_amended.2.2.2.1 ⟨[], [], [], []⟩ "water").1,
   C5_amended.2.2.2.2.1 ["x"],
   (C5_amended.2.2.2.2.2 ["a"] [] (by simp)).1 (by norm_num [parser_score])⟩

/-- C6, confirmed. The empty (and in the source equally the missing)
ingredient text takes the early-return branch of analyze_ingredients: no
error is possible (the function is total), all four category collections
are empty, the completeness score is 100 with level High, and the
processing level is 1. -/
theorem C6_empty_input :
    ∀ idx : ReferenceIndex, analyze_ingredients idx "" =
      ⟨[], [], [], [], 100, "High", 1,
       "Unprocessed or Minimally Processed Food (No Ingredients Listed)"⟩ := by
  intro idx
  rfl

/-- C7, confirmed. analyze_ingredients is a pure function of the Reference
Index and the input string in this embedding (the source's lookup tables
are read-only after startup and the function performs no observable I/O),
so two calls on the same arguments agree in every component. -/
theorem C7_deterministic :
    ∀ (idx : ReferenceIndex) (s : String),
      analyze_ingredients idx s = analyze_ingredients idx s ∧
      (analyze_ingredients idx s).identified_fda_non_common =
        (analyze_ingredients idx s).identified_fda_non_common ∧
      (analyze_ingredients idx s).identified_fda_common =
        (analyze_ingredients idx s).identified_fda_common ∧
      (analyze_ingredients idx s).identified_common_ingredients_only =
        (analyze_ingredients idx s).identified_common_ingredients_only ∧
      (analyze_ingredients idx s).truly_unidentified_ingredients =
        (analyze_ingredients idx s).truly_unidentified_ingredients ∧
      (analyze_ingredients idx s).data_score_percentage =
        (analyze_ingredients idx s).data_score_percentage ∧
      (analyze_ingredients idx s).data_completeness_level =
        (analyze_ingredients idx s).data_completeness_level ∧
      (analyze_ingredients idx s).nova_score = (analyze_ingredients idx s).nova_score ∧
      (analyze_ingredients idx s).nova_description =
        (analyze_ingredients idx s).nova_description :=
  fun _ _ => ⟨rfl, rfl, rfl, rfl, rfl, rfl, rfl, rfl, rfl⟩

/-- C8, confirmed. On a cache hit, check_airtable_cache returns the fields
captured before the update: the caller sees the pre-increment lookup_count
and the pre-update last_access, while the stored record is updated with
lookup_count + 1 and the current time. -/
theorem C8_hit_returns_pre_update :
    ∀ (now_iso : String) (store : List AirtableRecord) (gtin : String)
      (record : AirtableRecord),
      airtable_search store gtin = some record →
      (check_airtable_cache now_iso store gtin).1 = some record.fields ∧
      (check_airtable_cache now_iso store gtin).2 =
        airtable_update_access store record.id
          (record.fields.lookup_count.getD 0 + 1) now_iso ∧
      ∀ r ∈ (check_airtable_cache now_iso store gtin).2, r.id = record.id →
        r.fields.lookup_count = some (record.fields.lookup_count.getD 0 + 1) ∧
        r.fields.last_access = some now_iso := by
  intro now_iso store gtin record h
  unfold check_airtable_cache
  rw [h]
  refine ⟨rfl, rfl, ?_⟩
  intro r hr hid
  have hr2 : r ∈ airtable_update_access store record.id
      (record.fields.lookup_count.getD 0 + 1) now_iso := hr
  unfold airtable_update_access at hr2
  obtain ⟨orig, _, hmap⟩ := List.mem_map.mp hr2
  by_cases hcase : orig.id = record.id
  · rw [if_pos hcase] at hmap
    rw [← hmap]
    exact ⟨rfl, rfl⟩
  · rw [if_neg hcase] at hmap
    rw [← hmap] at hid
    exact absurd hid hcase

/-- Witness for C8_hit_returns_pre_update on a one-record store: the hit
returns the stored lookup_count 3 and old timestamp, while the store moves
to lookup_count 4 and the new timestamp. -/
theorem C8_hit_returns_pre_update_witness :
    (check_airtable_cache "NEW-TS"
        [⟨5, ⟨"G1", "d", "i", some 3, some "OLD-TS"⟩⟩] "G1").1 =
      some ⟨"G1", "d", "i", some 3, some "OLD-TS"⟩ ∧
    ∀ r ∈ (check_airtable_cache "NEW-TS"
        [⟨5, ⟨"G1", "d", "i", some 3, some "OLD-TS"⟩⟩] "G1").2, r.id = 5 →
      r.fields.lookup_count = some 4 ∧ r.fields.last_access = some "NEW-TS" :=
  ⟨(C8_hit_returns_pre_update "NEW-TS" [⟨5, ⟨"G1", "d", "i", some 3, some "OLD-TS"⟩⟩]
      "G1" ⟨5, ⟨"G1", "d", "i", some 3, some "OLD-TS"⟩⟩ rfl).1,
   fun r hr hid =>
    (C8_hit_returns_pre_update "NEW-TS" [⟨5, ⟨"G1", "d", "i", some 3, some "OLD-TS"⟩⟩]
      "G1" ⟨5, ⟨"G1", "d", "i", some 3, some "OLD-TS"⟩⟩ rfl).2.2 r hr hid⟩

/-- C9, confirmed. In app_old.py's eviction, a record whose last_access is
missing or unparseable falls back to datetime.min (timestamp 0 in this
model): once now is at least one freshness window past datetime.min it
receives no freshness bonus, so its effective score is its bare
lookup_count; its parsed timestamp is minimal, so whenever its effective
score is at most another record's, its (score, last_access) sort key is at
most the other's, making it a preferred victim. The eviction routine is a
total function here, so the malformed timestamp raises nothing. -/
theorem C9_malformed_timestamp :
    ∀ (now : Nat) (parse : String → Option Nat) (rf rg : AirtableRecord),
      parse (rf.fields.last_access.getD default_last_access) = none →
      freshness_window ≤ now →
      last_access_dt parse rf.fields = 0 ∧
      effective_score now (rf.fields.lookup_count.getD 0) (last_access_dt parse rf.fields) =
        rf.fields.lookup_count.getD 0 ∧
      last_access_dt parse rf.fields ≤ last_access_dt parse rg.fields ∧
      (effective_score now (rf.fields.lookup_count.getD 0)
          (last_access_dt parse rf.fields) ≤
        effective_score now (rg.fields.lookup_count.getD 0)
          (last_access_dt parse rg.fields) →
        eviction_key_old now parse rf ≤ eviction_key_old now parse rg) := by
  intro now parse rf rg hparse hwin
  have hla : last_access_dt parse rf.fields = 0 := by
    unfold last_access_dt
    rw [hparse]
    rfl
  have hbonus : freshness_window ≤ now - 0 := by omega
  have hes : effective_score now (rf.fields.lookup_count.getD 0)
      (last_access_dt parse rf.fields) = rf.fields.lookup_count.getD 0 := by
    rw [hla]
    unfold effective_score
    exact if_neg (not_lt.mpr hbonus)
  refine ⟨hla, hes, by rw [hla]; exact Nat.zero_le _, ?_⟩
  intro hle
  unfold eviction_key_old
  rcases lt_or_eq_of_le hle with hlt | heq
  · exact le_of_lt ((Prod.Lex.lt_iff _ _).mpr (Or.inl hlt))
  · refine (Prod.Lex.le_iff _ _).mpr (Or.inr ⟨heq, ?_⟩)
    rw [hla]
    exact Nat.zero_le _

/-- Witness for C9_malformed_timestamp: a record with an unparseable
timestamp against a freshly accessed record. -/
theorem C9_malformed_timestamp_witness :
    last_access_dt (fun _ => none)
      (⟨7, ⟨"G", "d", "i", some 2, some "not-a-date"⟩⟩ : AirtableRecord).fields = 0 ∧
    effective_score (2 * freshness_window)
      ((⟨7, ⟨"G", "d", "i", some 2, some "not-a-date"⟩⟩ : AirtableRecord).fields.lookup_count.getD 0)
      (last_access_dt (fun _ => none)
        (⟨7, ⟨"G", "d", "i", some 2, some "not-a-date"⟩⟩ : AirtableRecord).fields) = 2 :=
  ⟨(C9_malformed_timestamp (2 * freshness_window) (fun _ => none)
      ⟨7, ⟨"G", "d", "i", some 2, some "not-a-date"⟩⟩
      ⟨8, ⟨"H", "d", "i", some 1, some "fresh"⟩⟩ rfl (by omega)).1,
   (C9_malformed_timestamp (2 * freshness_window) (fun _ => none)
      ⟨7, ⟨"G", "d", "i", some 2, some "not-a-date"⟩⟩
      ⟨8, ⟨"H", "d", "i", some 1, some "fresh"⟩⟩ rfl (by omega)).2.1⟩

/-- insertSet preserves duplicate-freedom. -/
lemma insertSet_nodup (l : List String) (x : String) (h : l.Nodup) : (insertSet l x).Nodup := by
  unfold insertSet
  by_cases hx : x ∈ l
  · rw [if_pos hx]
    exact h
  · rw [if_neg hx]
    exact h.append (List.nodup_singleton x) (List.disjoint_singleton.mpr hx)

set_option maxHeartbeats 1000000 in
/-- process_component preserves duplicate-freedom of the four category
collections. -/
lemma process_component_nodup (idx : ReferenceIndex) (st : AnalyzeState) (c : String)
    (h : st.identified_fda_non_common.Nodup ∧ st.identified_fda_common.Nodup ∧
      st.identified_common_ingredients_only.Nodup ∧
      st.truly_unidentified_ingredients.Nodup) :
    (process_component idx st c).identified_fda_non_common.Nodup ∧
    (process_component idx st c).identified_fda_common.Nodup ∧
    (process_component idx st c).identified_common_ingredients_only.Nodup ∧
    (process_component idx st c).truly_unidentified_ingredients.Nodup := by
  obtain ⟨h1, h2, h3, h4⟩ := h
  simp only [process_component]
  split
  · exact ⟨h1, h2, h3, h4⟩
  · split
    · split
      · exact ⟨h1, insertSet_nodup _ _ h2, h3, h4⟩
      · exact ⟨insertSet_nodup _ _ h1, h2, h3, h4⟩
    · split
      · exact ⟨h1, h2, insertSet_nodup _ _ h3, h4⟩
      · exact ⟨h1, h2, h3, insertSet_nodup _ _ h4⟩

/-- The component fold preserves duplicate-freedom. -/
lemma foldl_process_nodup (idx : ReferenceIndex) (comps : List String) :
    ∀ st : AnalyzeState,
      st.identified_fda_non_common.Nodup ∧ st.identified_fda_common.Nodup ∧
        st.identified_common_ingredients_only.Nodup ∧
        st.truly_unidentified_ingredients.Nodup →
      (comps.foldl (process_component idx) st).identified_fda_non_common.Nodup ∧
      (comps.foldl (process_component idx) st).identified_fda_common.Nodup ∧
      (comps.foldl (process_component idx) st).identified_common_ingredients_only.Nodup ∧
      (comps.foldl (process_component idx) st).truly_unidentified_ingredients.Nodup := by
  induction comps with
  | nil => exact fun st h => h
  | cons c cs ih =>
    intro st h
    exact ih (process_component idx st c) (process_component_nodup idx st c h)

/-- The four collections of analyze_components are duplicate-free. -/
lemma analyze_components_nodup (idx : ReferenceIndex) (comps : List String) :
    (analyze_components idx comps).identified_fda_non_common.Nodup ∧
    (analyze_components idx comps).identified_fda_common.Nodup ∧
    (analyze_components idx comps).identified_common_ingredients_only.Nodup ∧
    (analyze_components idx comps).truly_unidentified_ingredients.Nodup :=
  foldl_process_nodup idx comps empty_state
    ⟨List.nodup_nil, List.nodup_nil, List.nodup_nil, List.nodup_nil⟩

/-- C10, confirmed. The four category collections of every classification
result are duplicate-free (they are Python sets in the source), while
total_phrases and categorized_count count every occurrence: on the input
"salt, salt, goo" against an index where "salt" is a regulated-and-common
substance, the duplicated "salt" contributes one entry to the
RegulatedCommon collection but two to categorized_count, so the returned
score 2/3*100 differs from the score the deduplicated collections would
give (1 categorized of 2 distinct, i.e. 50). -/
theorem C10_dedup_collections_occurrence_counts :
    (∀ (idx : ReferenceIndex) (s : String),
      (analyze_ingredients idx s).identified_fda_non_common.Nodup ∧
      (analyze_ingredients idx s).identified_fda_common.Nodup ∧
      (analyze_ingredients idx s).identified_common_ingredients_only.Nodup ∧
      (analyze_ingredients idx s).truly_unidentified_ingredients.Nodup) ∧
    analyze_ingredients ⟨[("salt", "salt")], [], ["salt"], []⟩ "salt, salt, goo" =
      ⟨[], ["Salt"], [], ["goo"], data_score_percentage 2 3,
        data_completeness_level (data_score_percentage 2 3), 3,
        "Processed Food (Categorization Ambiguous)"⟩ ∧
    segment_components "salt, salt, goo" = ["salt", "salt", "goo"] ∧
    data_score_percentage 2 3 = 200 / 3 ∧
    data_score_percentage 1 2 = 50 ∧
    (200 : ℚ) / 3 ≠ 50 := by
  refine ⟨?_, rfl, rfl, ?_, ?_, ?_⟩
  · intro idx s
    simp only [analyze_ingredients]
    split
    · exact ⟨List.nodup_nil, List.nodup_nil, List.nodup_nil, List.nodup_nil⟩
    · exact analyze_components_nodup idx _
  · norm_num [data_score_percentage]
  · norm_num [data_score_percentage]
  · norm_num

end SmartGrocery
